import Mathlib

/-!
Shallow embedding of `geopy/geocoders/googlev3.py` (the `GoogleV3` geocoder):
the JSON value model, response parsing, construction-time validation,
URL building and the Premier request-signing scheme (HMAC-SHA1 over the
path+query, keyed by the URL-safe-base64-decoded secret), together with
theorems settling the specified properties.
-/

namespace GeopyGoogleV3

/-- JSON values as the Python `json` module produces them: `None`, booleans,
numbers (JSON decimal numbers, modelled as rationals), strings, lists and
string-keyed dicts (modelled as association lists in insertion order). -/
inductive Json where
  | jnull : Json
  | jbool : Bool → Json
  | jnum : Rat → Json
  | jstr : String → Json
  | jarr : List Json → Json
  | jobj : List (String × Json) → Json
deriving Repr

/-- Python runtime errors the parsing code can raise. -/
inductive PyErr where
  | keyError : String → PyErr
  | typeError : PyErr
  | attributeError : PyErr
deriving Repr, DecidableEq

/-- `True` on a `.error`, `False` on an `.ok`: whether a modelled Python call
raises. -/
def raises {ε α : Type} : Except ε α → Bool
  | .error _ => true
  | .ok _ => false

/-- Python truthiness of a JSON value: `None`, `False`, `0`, `""`, `[]` and
`{}` are falsy, everything else truthy. -/
def Json.isTruthy : Json → Bool
  | .jnull => false
  | .jbool b => b
  | .jnum q => q ≠ 0
  | .jstr s => !s.isEmpty
  | .jarr xs => !xs.isEmpty
  | .jobj fs => !fs.isEmpty

/-- Python `d[k]` on a JSON value: dict lookup, raising `KeyError` when the
key is absent and `TypeError` when the value is not a dict (indexing a
non-dict JSON value by a string key is a Python `TypeError`). -/
def Json.index : Json → String → Except PyErr Json
  | .jobj fs, k =>
    match fs.lookup k with
    | some v => .ok v
    | none => .error (.keyError k)
  | _, _ => .error .typeError

/-- Python `d.get(k, default)` on a JSON value: dict lookup with a default,
raising `AttributeError` when the value is not a dict (non-dicts have no
`.get` method). -/
def Json.get : Json → String → Json → Except PyErr Json
  | .jobj fs, k, dflt => .ok ((fs.lookup k).getD dflt)
  | _, _, _ => .error .attributeError

/-- Errors raised by the geocoder: the three status-mapped error classes of
`googlev3.py` (`GQueryError`, `GTooManyQueriesError`, the base
`GeocoderResultError`) plus propagated Python runtime errors. -/
inductive GeocoderError where
  | gQueryError : String → GeocoderError
  | gTooManyQueriesError : String → GeocoderError
  | geocoderResultError : String → GeocoderError
  | pyError : PyErr → GeocoderError
deriving Repr, DecidableEq

/-- `GoogleV3._check_status`: maps the response `status` field to the error
raised. Every branch of the source raises, so the result is the error
itself. -/
def check_status (status : Json) : GeocoderError :=
  match status with
  | .jstr s =>
    if s = "ZERO_RESULTS" then
      .gQueryError
        "The geocode was successful but returned no results. This may occur if the geocode was passed a non-existent address or a latlng in a remote location."
    else if s = "OVER_QUERY_LIMIT" then
      .gTooManyQueriesError
        "The given key has gone over the requests limit in the 24 hour period or has submitted too many requests in too short a period of time."
    else if s = "REQUEST_DENIED" then
      .gQueryError
        "Your request was denied, probably because of lack of a sensor parameter."
    else if s = "INVALID_REQUEST" then
      .gQueryError "Probably missing address or latlng."
    else .geocoderResultError "Unknown error."
  | _ => .geocoderResultError "Unknown error."

/-- `parse_place` (the inner function of `GoogleV3.parse_json`): extract
`formatted_address` via `.get` (default `None`), then
`place['geometry']['location']['lat']` and `['lng']` via raising
indexing. -/
def parse_place (place : Json) : Except PyErr (Json × (Json × Json)) :=
  match place.get "formatted_address" .jnull with
  | .error e => .error e
  | .ok location =>
    match place.index "geometry" with
    | .error e => .error e
    | .ok geometry =>
      match geometry.index "location" with
      | .error e => .error e
      | .ok loc =>
        match loc.index "lat" with
        | .error e => .error e
        | .ok latitude =>
          match loc.index "lng" with
          | .error e => .error e
          | .ok longitude => .ok (location, (latitude, longitude))

/-- The list comprehension `[parse_place(place) for place in places]`:
parses the places left to right, propagating the first raised error. -/
def parse_places : List Json → Except PyErr (List (Json × (Json × Json)))
  | [] => .ok []
  | p :: ps =>
    match parse_place p with
    | .error e => .error e
    | .ok r =>
      match parse_places ps with
      | .error e => .error e
      | .ok rs => .ok (r :: rs)

/-- The value `parse_json` produces: the first place's tuple under
`exactly_one`, otherwise the list of all places' tuples. -/
inductive ParseResult where
  | one : Json × (Json × Json) → ParseResult
  | many : List (Json × (Json × Json)) → ParseResult
deriving Repr

/-- The result component of `GoogleV3.parse_json`, computed from the parsed
response document. `places` is `doc.get('results', [])`; on a falsy
`places` the status is checked (which always raises — the trailing
`return None` in the source is unreachable); on a truthy list,
`places[0]` is parsed under `exactly_one` and every place otherwise.
A truthy non-list `results` value makes the Python code fail at
indexing/iteration, modelled as a `TypeError`; a non-dict document makes
`doc.get` raise `AttributeError`. -/
def parse_json_result (page : Json) (exactly_one : Bool) :
    Except GeocoderError ParseResult :=
  match page with
  | .jobj fs =>
    let places := (fs.lookup "results").getD (.jarr [])
    if places.isTruthy then
      match places with
      | .jarr ps =>
        if exactly_one then
          ((parse_place (ps.headD .jnull)).map .one).mapError .pyError
        else
          ((parse_places ps).map .many).mapError .pyError
      | _ => .error (.pyError .typeError)
    else
      .error (check_status ((fs.lookup "status").getD .jnull))
  | _ => .error (.pyError .attributeError)

/-- The state of a constructed `GoogleV3` instance: the configuration
fields set in `__init__` plus the `doc` debugging field that
`parse_json` overwrites. The optional credentials are `None` (`none`) or
a string. -/
structure GoogleV3 where
  domain : String
  protocol : String
  premier : Bool
  client_id : Option String
  secret_key : Option String
  doc : Json
deriving Repr

/-- Python truthiness of an optional string: `None` and `''` are falsy. -/
def optTruthy : Option String → Bool
  | none => false
  | some s => !s.isEmpty

/-- Python `s.strip('/')`: remove leading and trailing `'/'` characters. -/
def strip_slashes (s : String) : String :=
  String.mk (((s.toList.dropWhile (· = '/')).reverse.dropWhile (· = '/')).reverse)

/-- `GoogleV3.__init__`: validates the protocol and the all-or-nothing
credentials, then stores the stripped domain, the protocol, an empty
`doc`, and the premier flag with the credentials (kept only when both
are truthy). Raised `ValueError`s are modelled as `.error` with the
source's message. -/
def init (domain protocol : String) (client_id secret_key : Option String) :
    Except String GoogleV3 :=
  if ¬ (protocol = "http" ∨ protocol = "https") then
    .error "Supported protocols are http and https."
  else if optTruthy client_id ∧ ¬ optTruthy secret_key then
    .error "Must provide secret_key with client_id."
  else if optTruthy secret_key ∧ ¬ optTruthy client_id then
    .error "Must provide client_id with secret_key."
  else
    .ok
      { domain := strip_slashes domain
        protocol := protocol
        premier := optTruthy client_id && optTruthy secret_key
        client_id :=
          if optTruthy client_id && optTruthy secret_key then client_id else none
        secret_key :=
          if optTruthy client_id && optTruthy secret_key then secret_key else none
        doc := .jobj [] }

/-- `GoogleV3.parse_json` as a state transformer: stores the parsed page in
`self.doc`, and returns the parse result (or raised error) computed by
`parse_json_result`. The page is taken already JSON-decoded, as the
claims quantify over parsed responses. -/
def parse_json (self : GoogleV3) (page : Json) (exactly_one : Bool) :
    GoogleV3 × Except GeocoderError ParseResult :=
  ({ self with doc := page }, parse_json_result page exactly_one)

/-- The accepted shapes of `reverse`'s `point` argument: a
`geopy.point.Point` (with `latitude`/`longitude` attributes), a
two-element list or tuple, or a pre-formatted string. -/
inductive PointInput where
  | point : Rat → Rat → PointInput
  | pair : Rat → Rat → PointInput
  | str : String → PointInput
deriving Repr, DecidableEq

/-- Python 2 `sep.join(x, y)`: `str.join` takes exactly one (iterable)
argument, so calling it with two positional arguments raises
`TypeError: join() takes exactly one argument (2 given)` for every `x`
and `y` — and would raise `TypeError` again on float items even if it
accepted two. -/
def strJoinTwoArgs {α : Type} (sep : String) (x y : α) : Except PyErr String :=
  match sep, x, y with
  | _, _, _ => .error .typeError

/-- `GoogleV3._coerce_point_to_string`: the `Point` and list/tuple branches
call `",".join(...)` with two arguments, which raises `TypeError`; a
string input falls through unchanged. -/
def coerce_point_to_string : PointInput → Except PyErr String
  | .point latitude longitude => strJoinTwoArgs "," latitude longitude
  | .pair fst snd => strJoinTwoArgs "," fst snd
  | .str s => .ok s

/-- An uppercase hexadecimal digit for `n < 16`. -/
def hexUpper (n : Nat) : Char :=
  if n < 10 then Char.ofNat (48 + n) else Char.ofNat (55 + n % 16)

/-- One character of Python 2 `urllib.quote_plus`: a space becomes `+`,
letters, digits, `_`, `.` and `-` pass through, and every other byte is
percent-encoded with uppercase hex digits. -/
def quoteChar (c : Char) : List Char :=
  if c == ' ' then ['+']
  else if c.isAlphanum || c == '_' || c == '.' || c == '-' then [c]
  else
    let b := c.toNat % 256
    ['%', hexUpper (b / 16), hexUpper (b % 16)]

/-- Python 2 `urllib.quote_plus` over a byte string. -/
def quote_plus (s : String) : String :=
  String.mk (s.toList.foldr (fun c acc => quoteChar c ++ acc) [])

/-- Python 2 `urllib.urlencode` over the parameter map, modelled as an
association list in a fixed order (a Python dict iterates in an
unspecified order): `k=v` pairs joined by `&`, both sides
`quote_plus`-encoded. -/
def urlencode (params : List (String × String)) : String :=
  String.intercalate "&"
    (params.map (fun kv => quote_plus kv.1 ++ "=" ++ quote_plus kv.2))

/-- The URL-safe base64 alphabet: `A`-`Z`, `a`-`z`, `0`-`9`, `-`, `_`. -/
def b64Char (n : Nat) : Char :=
  if n < 26 then Char.ofNat (65 + n)
  else if n < 52 then Char.ofNat (97 + (n - 26))
  else if n < 62 then Char.ofNat (48 + (n - 52))
  else if n == 62 then '-'
  else '_'

/-- The value of a base64 character. `base64.urlsafe_b64decode` translates
`-` and `_` to `+` and `/` and then decodes the standard alphabet, so
both alphabets' digit-62 and digit-63 characters are accepted. -/
def b64Value (c : Char) : Option Nat :=
  if 65 ≤ c.toNat ∧ c.toNat ≤ 90 then some (c.toNat - 65)
  else if 97 ≤ c.toNat ∧ c.toNat ≤ 122 then some (c.toNat - 97 + 26)
  else if 48 ≤ c.toNat ∧ c.toNat ≤ 57 then some (c.toNat - 48 + 52)
  else if c == '-' ∨ c == '+' then some 62
  else if c == '_' ∨ c == '/' then some 63
  else none

/-- Base64 encoding of a byte list, three bytes to four characters, with
`=` padding on a short final group. -/
def b64EncodeGroups : List Nat → List Char
  | [] => []
  | [a] =>
    let n := a % 256 * 65536
    [b64Char (n / 262144), b64Char (n / 4096 % 64), '=', '=']
  | [a, b] =>
    let n := a % 256 * 65536 + b % 256 * 256
    [b64Char (n / 262144), b64Char (n / 4096 % 64), b64Char (n / 64 % 64), '=']
  | a :: b :: c :: rest =>
    let n := a % 256 * 65536 + b % 256 * 256 + c % 256
    b64Char (n / 262144) :: b64Char (n / 4096 % 64) :: b64Char (n / 64 % 64) ::
      b64Char (n % 64) :: b64EncodeGroups rest

/-- `base64.urlsafe_b64encode` of a byte list. -/
def urlsafe_b64encode (bs : List Nat) : String :=
  String.mk (b64EncodeGroups bs)

/-- Base64 decoding, four characters to three bytes, `=`-padded final
group; `none` models the `binascii.Error` raised on malformed input. -/
def b64DecodeGroups : List Char → Option (List Nat)
  | [] => some []
  | [a, b, '=', '='] => do
    let x ← b64Value a
    let y ← b64Value b
    some [x * 4 + y / 16]
  | [a, b, c, '='] => do
    let x ← b64Value a
    let y ← b64Value b
    let z ← b64Value c
    some [x * 4 + y / 16, y % 16 * 16 + z / 4]
  | a :: b :: c :: d :: rest => do
    let x ← b64Value a
    let y ← b64Value b
    let z ← b64Value c
    let w ← b64Value d
    let bytes ← b64DecodeGroups rest
    some ((x * 4 + y / 16) :: (y % 16 * 16 + z / 4) :: (z % 4 * 64 + w) :: bytes)
  | _ => none

/-- `base64.urlsafe_b64decode` of a byte string. -/
def urlsafe_b64decode (s : String) : Option (List Nat) :=
  b64DecodeGroups s.toList

/-- `2 ^ 32`, the word modulus of SHA-1. -/
def w32 : Nat := 4294967296

/-- 32-bit left rotation by `n` of `x < 2 ^ 32`. -/
def rotl (n x : Nat) : Nat := (x * 2 ^ n + x / 2 ^ (32 - n)) % w32

/-- The `k` big-endian bytes of `n`. -/
def natToBytesBE (k n : Nat) : List Nat :=
  (List.range k).map (fun i => n / 256 ^ (k - 1 - i) % 256)

/-- A big-endian word from a byte list. -/
def wordBE (bs : List Nat) : Nat := bs.foldl (fun a b => a * 256 + b % 256) 0

/-- Split a list into chunks of `n + 1` elements, the last possibly
shorter. -/
def chunksOfSucc {α : Type} (n : Nat) : List α → List (List α)
  | [] => []
  | x :: xs => (x :: xs.take n) :: chunksOfSucc n (xs.drop n)
termination_by l => l.length
decreasing_by simp [List.length_drop]; omega

/-- SHA-1 padding for a message of `len` bytes: a `0x80` byte, zeros until
56 mod 64, then the bit length as 8 big-endian bytes. -/
def sha1Padding (len : Nat) : List Nat :=
  128 :: (List.replicate ((119 - len % 64) % 64) 0 ++ natToBytesBE 8 (len * 8))

/-- One SHA-1 compression round on state `(a, b, c, d, e)` with round index
`i` and schedule word `w`. -/
def sha1Round (st : Nat × Nat × Nat × Nat × Nat) (iw : Nat × Nat) :
    Nat × Nat × Nat × Nat × Nat :=
  let (a, b, c, d, e) := st
  let (i, w) := iw
  let f :=
    if i < 20 then (b &&& c) ||| ((b ^^^ (w32 - 1)) &&& d)
    else if i < 40 then b ^^^ c ^^^ d
    else if i < 60 then (b &&& c) ||| (b &&& d) ||| (c &&& d)
    else b ^^^ c ^^^ d
  let k :=
    if i < 20 then 1518500249
    else if i < 40 then 1859775393
    else if i < 60 then 2400959708
    else 3395469782
  ((rotl 5 a + f + e + k + w) % w32, a, rotl 30 b, c, d)

/-- Extend the 16 words of a SHA-1 chunk to the 80-word schedule. -/
def sha1Extend (ws : Array Nat) : Array Nat :=
  (List.range 64).foldl
    (fun w i =>
      let j := i + 16
      w.push
        (rotl 1 ((w.getD (j - 3) 0) ^^^ (w.getD (j - 8) 0) ^^^
          (w.getD (j - 14) 0) ^^^ (w.getD (j - 16) 0))))
    ws

/-- Process one 64-byte SHA-1 chunk. -/
def sha1Chunk (h : Nat × Nat × Nat × Nat × Nat) (chunk : List Nat) :
    Nat × Nat × Nat × Nat × Nat :=
  let ws := sha1Extend (Array.mk ((chunksOfSucc 3 chunk).map wordBE))
  let st := ((List.range 80).zip ws.toList).foldl sha1Round h
  ((h.1 + st.1) % w32, (h.2.1 + st.2.1) % w32, (h.2.2.1 + st.2.2.1) % w32,
    (h.2.2.2.1 + st.2.2.2.1) % w32, (h.2.2.2.2 + st.2.2.2.2) % w32)

/-- `hashlib.sha1`: the 20-byte SHA-1 digest of a byte list. -/
def sha1 (msg : List Nat) : List Nat :=
  let padded := msg ++ sha1Padding msg.length
  let fin := (chunksOfSucc 63 padded).foldl sha1Chunk
    (1732584193, 4023233417, 2562383102, 271733878, 3285377520)
  natToBytesBE 4 fin.1 ++ natToBytesBE 4 fin.2.1 ++ natToBytesBE 4 fin.2.2.1 ++
    natToBytesBE 4 fin.2.2.2.1 ++ natToBytesBE 4 fin.2.2.2.2

/-- `hmac.new(key, msg, hashlib.sha1).digest()`: HMAC-SHA1 with block size
64, inner pad byte `0x36`, outer pad byte `0x5c`. -/
def hmac_sha1 (key msg : List Nat) : List Nat :=
  let k1 := if 64 < key.length then sha1 key else key
  let k2 := k1 ++ List.replicate (64 - k1.length) 0
  sha1 ((k2.map (fun b => b ^^^ 92)) ++ sha1 ((k2.map (fun b => b ^^^ 54)) ++ msg))

/-- The bytes of a Python 2 `str` (a byte string): one byte per
character. -/
def strBytes (s : String) : List Nat := s.toList.map (fun c => c.toNat % 256)

/-- `GoogleV3._get_url`: the plain geocoding URL. The scheme is the literal
`http` of the source's format string, not the configured protocol. -/
def get_url (self : GoogleV3) (params : List (String × String)) : String :=
  "http://" ++ self.domain ++ "/maps/api/geocode/json?" ++ urlencode params

/-- `GoogleV3._get_signed_url`: sets `params['client']` (modelled as
appending the binding — the source dict has no prior `client` key and no
specified iteration order), forms the path+query
`/maps/api/geocode/json?<params>`, signs it with HMAC-SHA1 keyed by the
URL-safe-base64-decoded secret key, URL-safe-base64 encodes the digest,
and builds the URL from the configured protocol and domain. `none`
models a raise before any request: a `None` credential (never the case
in premier mode) or a secret key that is not valid base64. -/
def get_signed_url (self : GoogleV3) (params : List (String × String)) :
    Option String :=
  match self.client_id, self.secret_key with
  | some cid, some skey =>
    match urlsafe_b64decode skey with
    | none => none
    | some secret =>
      let ps := params ++ [("client", cid)]
      let url_part := "/maps/api/geocode/json?" ++ urlencode ps
      let signature := hmac_sha1 secret (strBytes url_part)
      some (self.protocol ++ "://" ++ self.domain ++ url_part ++
        "&signature=" ++ urlsafe_b64encode signature)
  | _, _ => none

/-- The parameter map `GoogleV3.geocode` builds: `address` (the query
through the external base class's default `'%s'` format string, i.e. the
query itself), `str(sensor).lower()`, then `bounds`, `region` and
`language` when truthy. `bounds` is passed to `urlencode` through
`str()`, modelled as a pre-rendered string. -/
def geocode_params (query : String) (bounds region language : Option String)
    (sensor : Bool) : List (String × String) :=
  [("address", query), ("sensor", if sensor then "true" else "false")] ++
    (if optTruthy bounds then [("bounds", bounds.getD "")] else []) ++
    (if optTruthy region then [("region", region.getD "")] else []) ++
    (if optTruthy language then [("language", language.getD "")] else [])

/-- The parameter map `GoogleV3.reverse` builds: the coerced `latlng`,
`str(sensor).lower()`, then `language` when truthy. -/
def reverse_params (latlng : String) (language : Option String)
    (sensor : Bool) : List (String × String) :=
  [("latlng", latlng), ("sensor", if sensor then "true" else "false")] ++
    (if optTruthy language then [("language", language.getD "")] else [])

/-- The URL dispatch shared by `geocode` and `reverse`:
`if not self.premier: self._get_url(params) else:
self._get_signed_url(params)`. -/
def dispatch_url (self : GoogleV3) (params : List (String × String)) :
    Option String :=
  if self.premier then get_signed_url self params
  else some (get_url self params)

/-- `GoogleV3.geocode`: builds the parameter map, builds the plain or
signed URL by the premier flag, fetches it over the external HTTP
transport (modelled by taking the transport's response `page` as an
argument), and parses it via `geocode_url`, i.e. `parse_json`. A
signing failure raises before any request, leaving the state
unchanged. -/
def geocode (self : GoogleV3) (query : String)
    (bounds region language : Option String) (sensor exactly_one : Bool)
    (page : Json) : GoogleV3 × Except GeocoderError ParseResult :=
  match dispatch_url self (geocode_params query bounds region language sensor) with
  | none => (self, .error (.pyError .typeError))
  | some _ => parse_json self page exactly_one

/-- `GoogleV3.reverse`: coerces the point to a `latlng` string (raising on
the `Point` and pair shapes, see `coerce_point_to_string`), builds the
parameter map and the plain or signed URL, fetches it (response `page`
injected) and parses it via `parse_json`. -/
def reverse (self : GoogleV3) (point : PointInput) (language : Option String)
    (sensor exactly_one : Bool) (page : Json) :
    GoogleV3 × Except GeocoderError ParseResult :=
  match coerce_point_to_string point with
  | .error e => (self, .error (.pyError e))
  | .ok latlng =>
    match dispatch_url self (reverse_params latlng language sensor) with
    | none => (self, .error (.pyError .typeError))
    | some _ => parse_json self page exactly_one

/-- The signed URL as the specification words it (§4.1): append
`client=<client_id>` to the params; compute the path+query string
`/maps/api/geocode/json?<params>`; decode the secret key from URL-safe
base64; compute HMAC-SHA1 over the path+query using the decoded secret
as key; base64-url-encode the digest; append `&signature=<digest>` to
the final URL, which uses the configured protocol and domain. -/
def signed_url_spec (protocol domain : String)
    (params : List (String × String)) (client_id secret_key : String) :
    Option String :=
  let withClient := params ++ [("client", client_id)]
  let pathQuery := "/maps/api/geocode/json?" ++ urlencode withClient
  match urlsafe_b64decode secret_key with
  | none => none
  | some secret =>
    some (protocol ++ "://" ++ domain ++ pathQuery ++ "&signature=" ++
      urlsafe_b64encode (hmac_sha1 secret (strBytes pathQuery)))

/-- The construction-time configuration fields of two states agree. -/
def sameConfig (a b : GoogleV3) : Prop :=
  a.domain = b.domain ∧ a.protocol = b.protocol ∧ a.premier = b.premier ∧
    a.client_id = b.client_id ∧ a.secret_key = b.secret_key

/-- A plain (non-premier) instance as constructed with the default
arguments. -/
def sampleState : GoogleV3 :=
  { domain := "maps.googleapis.com", protocol := "http", premier := false,
    client_id := none, secret_key := none, doc := .jobj [] }

/-- A premier instance carrying the client id and URL-safe-base64 secret
key of the vendor's published signing example. -/
def premierState : GoogleV3 :=
  { domain := "maps.googleapis.com", protocol := "https", premier := true,
    client_id := some "clientID",
    secret_key := some "vNIXE0xscrmjlyV-12Nj_BvUPaw=", doc := .jobj [] }

/-- A well-formed place object of a geocoding response. -/
def samplePlace : Json :=
  .jobj
    [("formatted_address",
      .jstr "1600 Amphitheatre Parkway, Mountain View, CA, USA"),
     ("geometry",
      .jobj [("location", .jobj [("lat", .jnum 37), ("lng", .jnum (-122))])])]

/-- A place object with coordinates but no `formatted_address` key. -/
def samplePlaceNoAddress : Json :=
  .jobj
    [("geometry",
      .jobj [("location", .jobj [("lat", .jnum 40), ("lng", .jnum (-73))])])]

/-- A place object whose `geometry.location` lacks the `lng` key. -/
def samplePlaceNoLng : Json :=
  .jobj
    [("formatted_address", .jstr "Nowhere"),
     ("geometry", .jobj [("location", .jobj [("lat", .jnum 40)])])]

/-- C1: the claim says a structured `Point`, a two-element pair and a
literal `"lat,lng"` string with the same coordinates coerce to one
identical `latlng` parameter string. In the code as written only the
string branch returns: the `Point` and pair branches call
`",".join(...)` with two arguments, which raises `TypeError`, so no
`latlng` string is ever produced for those shapes. -/
theorem coerce_point_point_and_pair_raise :
    coerce_point_to_string
        (.point (40714224 / 1000000 : Rat) (-73961452 / 1000000 : Rat)) =
      .error .typeError ∧
    coerce_point_to_string
        (.pair (40714224 / 1000000 : Rat) (-73961452 / 1000000 : Rat)) =
      .error .typeError ∧
    coerce_point_to_string (.str "40.714224,-73.961452") =
      .ok "40.714224,-73.961452" :=
  ⟨rfl, rfl, rfl⟩

/-- C4: for every parameter map and either configured protocol, the plain
URL builder returns `http://<domain>/maps/api/geocode/json?<params>`:
the scheme is the literal `http` of the format string, independent of
the configured protocol. -/
theorem get_url_forces_http (self : GoogleV3)
    (params : List (String × String))
    (h : self.protocol = "http" ∨ self.protocol = "https") :
    get_url self params =
      "http://" ++ self.domain ++ "/maps/api/geocode/json?" ++
        urlencode params ∧
    get_url { self with protocol := "https" } params =
      get_url { self with protocol := "http" } params :=
  ⟨rfl, rfl⟩

/-- Witness for C4 at a concrete state and parameter map. -/
theorem get_url_forces_http_witness :
    (sampleState.protocol = "http" ∨ sampleState.protocol = "https") ∧
    get_url sampleState [("address", "Berlin"), ("sensor", "false")] =
      "http://" ++ sampleState.domain ++ "/maps/api/geocode/json?" ++
        urlencode [("address", "Berlin"), ("sensor", "false")] :=
  ⟨Or.inl rfl,
    (get_url_forces_http sampleState
      [("address", "Berlin"), ("sensor", "false")] (Or.inl rfl)).1⟩

/-- C3: with both credentials present (premier mode), the signed URL
builder agrees with the specification's description: append
`client=<client_id>`, form `/maps/api/geocode/json?<params>`, HMAC-SHA1
it keyed by the URL-safe-base64-decoded secret key, URL-safe-base64
encode the digest, and return
`<protocol>://<domain><path+query>&signature=<digest>`. -/
theorem get_signed_url_refines_spec (self : GoogleV3)
    (params : List (String × String)) (cid skey : String)
    (h1 : self.client_id = some cid) (h2 : self.secret_key = some skey) :
    get_signed_url self params =
      signed_url_spec self.protocol self.domain params cid skey := by
  cases hd : urlsafe_b64decode skey <;>
    simp [get_signed_url, signed_url_spec, h1, h2, hd]

/-- Witness for C3 at the vendor's published signing example. -/
theorem get_signed_url_refines_spec_witness :
    premierState.client_id = some "clientID" ∧
    premierState.secret_key = some "vNIXE0xscrmjlyV-12Nj_BvUPaw=" ∧
    get_signed_url premierState [("address", "New York"), ("sensor", "false")] =
      signed_url_spec premierState.protocol premierState.domain
        [("address", "New York"), ("sensor", "false")] "clientID"
        "vNIXE0xscrmjlyV-12Nj_BvUPaw=" :=
  ⟨rfl, rfl,
    get_signed_url_refines_spec premierState
      [("address", "New York"), ("sensor", "false")] "clientID"
      "vNIXE0xscrmjlyV-12Nj_BvUPaw=" rfl rfl⟩

/-- C10: constructing with both credentials equal to the empty string is
the same as constructing with absent credentials — empty strings are
falsy — and with the default domain and protocol it succeeds with a
non-premier state. -/
theorem init_empty_credentials_plain :
    (∀ domain protocol : String,
      init domain protocol (some "") (some "") =
        init domain protocol none none) ∧
    init "maps.googleapis.com" "http" (some "") (some "") =
      .ok { domain := "maps.googleapis.com", protocol := "http",
            premier := false, client_id := none, secret_key := none,
            doc := .jobj [] } := by
  constructor
  · intro domain protocol
    have h0 : "".isEmpty = true := rfl
    simp [init, optTruthy, h0]
  · rfl

/-- C2: parsing a response whose `results` array is empty (or absent)
raises the error that `_check_status` maps from the `status` field and
never returns a value; `ZERO_RESULTS`, `REQUEST_DENIED` and
`INVALID_REQUEST` map to `GQueryError`, `OVER_QUERY_LIMIT` to
`GTooManyQueriesError`, and any other status — a non-matching string, a
non-string, or a missing field (`None`) — to `GeocoderResultError`. -/
theorem parse_json_empty_results_raises (self : GoogleV3)
    (fs : List (String × Json)) (eo : Bool)
    (hempty : fs.lookup "results" = some (.jarr []) ∨
      fs.lookup "results" = none) :
    (parse_json self (.jobj fs) eo).2 =
      .error (check_status ((fs.lookup "status").getD .jnull)) ∧
    (∀ s : String,
      s = "ZERO_RESULTS" ∨ s = "REQUEST_DENIED" ∨ s = "INVALID_REQUEST" →
      ∃ m, check_status (.jstr s) = .gQueryError m) ∧
    (∃ m, check_status (.jstr "OVER_QUERY_LIMIT") =
      .gTooManyQueriesError m) ∧
    (∀ s : String, s ≠ "ZERO_RESULTS" → s ≠ "OVER_QUERY_LIMIT" →
      s ≠ "REQUEST_DENIED" → s ≠ "INVALID_REQUEST" →
      ∃ m, check_status (.jstr s) = .geocoderResultError m) ∧
    (∀ st : Json, (∀ s, st ≠ .jstr s) →
      ∃ m, check_status st = .geocoderResultError m) := by
  refine ⟨?_, ?_, ⟨_, rfl⟩, ?_, ?_⟩
  · rcases hempty with h | h <;>
      simp [parse_json, parse_json_result, h, Json.isTruthy]
  · rintro s (rfl | rfl | rfl) <;> exact ⟨_, rfl⟩
  · intro s h1 h2 h3 h4
    exact ⟨"Unknown error.", by simp [check_status, h1, h2, h3, h4]⟩
  · intro st hst
    cases st with
    | jstr s => exact absurd rfl (hst s)
    | jnull => exact ⟨_, rfl⟩
    | jbool b => exact ⟨_, rfl⟩
    | jnum q => exact ⟨_, rfl⟩
    | jarr xs => exact ⟨_, rfl⟩
    | jobj ofs => exact ⟨_, rfl⟩

/-- Witness for C2: an empty-results `ZERO_RESULTS` response raises the
mapped `GQueryError`. -/
theorem parse_json_empty_results_raises_witness :
    (parse_json sampleState
        (.jobj [("results", .jarr []), ("status", .jstr "ZERO_RESULTS")])
        true).2 =
      .error (.gQueryError
        "The geocode was successful but returned no results. This may occur if the geocode was passed a non-existent address or a latlng in a remote location.") :=
  (parse_json_empty_results_raises sampleState
    [("results", .jarr []), ("status", .jstr "ZERO_RESULTS")] true
    (Or.inl rfl)).1

/-- C5: construction raises exactly when the protocol is neither `http`
nor `https` or exactly one of the two credentials is supplied (truthy),
and a successfully constructed instance is premier exactly when both
credentials are truthy. -/
theorem init_validates_protocol_and_credentials (domain protocol : String)
    (client_id secret_key : Option String) :
    ((∃ e, init domain protocol client_id secret_key = .error e) ↔
      (¬ (protocol = "http" ∨ protocol = "https") ∨
        optTruthy client_id ≠ optTruthy secret_key)) ∧
    (∀ g, init domain protocol client_id secret_key = .ok g →
      g.premier = (optTruthy client_id && optTruthy secret_key)) := by
  by_cases hp : protocol = "http" ∨ protocol = "https" <;>
    cases hcid : optTruthy client_id <;>
    cases hsk : optTruthy secret_key <;>
    constructor <;>
    simp [init, hp, hcid, hsk, not_or]

/-- Witness for C5: an invalid protocol raises, and a premier construction
yields a premier state. -/
theorem init_validates_witness :
    (∃ e, init "maps.googleapis.com" "ftp" none none = .error e) ∧
    (∀ g, init "maps.googleapis.com" "http" (some "cid") (some "key") =
        .ok g →
      g.premier = (optTruthy (some "cid") && optTruthy (some "key"))) :=
  ⟨(init_validates_protocol_and_credentials "maps.googleapis.com" "ftp"
      none none).1.mpr (Or.inl (by decide)),
    (init_validates_protocol_and_credentials "maps.googleapis.com" "http"
      (some "cid") (some "key")).2⟩

/-- C6: on a non-empty `results` array whose places parse, `parse_json`
returns the first place's `(formatted_address, (lat, lng))` tuple under
`exactly_one = true`, and under `exactly_one = false` the tuples of all
places, in response order (`parse_places` walks the array left to
right). -/
theorem parse_json_nonempty_results (self : GoogleV3)
    (fs : List (String × Json)) (p : Json) (ps : List Json)
    (r : Json × (Json × Json)) (rs : List (Json × (Json × Json)))
    (hres : fs.lookup "results" = some (.jarr (p :: ps)))
    (hfirst : parse_place p = .ok r)
    (hall : parse_places (p :: ps) = .ok rs) :
    (parse_json self (.jobj fs) true).2 = .ok (.one r) ∧
    (parse_json self (.jobj fs) false).2 = .ok (.many rs) := by
  constructor <;>
    simp [parse_json, parse_json_result, hres, Json.isTruthy, hfirst, hall,
      Except.map, Except.mapError]

/-- Witness for C6 on a one-result response. -/
theorem parse_json_nonempty_results_witness :
    (parse_json sampleState
        (.jobj [("results", .jarr [samplePlace]), ("status", .jstr "OK")])
        true).2 =
      .ok (.one
        (.jstr "1600 Amphitheatre Parkway, Mountain View, CA, USA",
          (.jnum 37, .jnum (-122)))) ∧
    (parse_json sampleState
        (.jobj [("results", .jarr [samplePlace]), ("status", .jstr "OK")])
        false).2 =
      .ok (.many
        [(.jstr "1600 Amphitheatre Parkway, Mountain View, CA, USA",
          (.jnum 37, .jnum (-122)))]) :=
  parse_json_nonempty_results sampleState
    [("results", .jarr [samplePlace]), ("status", .jstr "OK")]
    samplePlace [] _ _ rfl rfl rfl

/-- C9: a place with `geometry.location.lat` and `geometry.location.lng`
but no `formatted_address` key parses without raising: `.get` supplies
the default `None`, so the tuple's address component is `None`, and
`parse_json` returns it. -/
theorem parse_place_missing_address_is_none (self : GoogleV3)
    (fields fs : List (String × Json)) (geo loc la ln : Json)
    (hnoaddr : fields.lookup "formatted_address" = none)
    (hgeo : fields.lookup "geometry" = some geo)
    (hloc : geo.index "location" = .ok loc)
    (hlat : loc.index "lat" = .ok la)
    (hlng : loc.index "lng" = .ok ln) :
    parse_place (.jobj fields) = .ok (.jnull, (la, ln)) ∧
    (fs.lookup "results" = some (.jarr [.jobj fields]) →
      (parse_json self (.jobj fs) true).2 = .ok (.one (.jnull, (la, ln)))) := by
  have hgi : (Json.jobj fields).index "geometry" = .ok geo := by
    simp [Json.index, hgeo]
  have hp : parse_place (.jobj fields) = .ok (.jnull, (la, ln)) := by
    simp [parse_place, Json.get, hnoaddr, hgi, hloc, hlat, hlng]
  refine ⟨hp, fun hres => ?_⟩
  simp [parse_json, parse_json_result, hres, Json.isTruthy, hp, Except.map,
    Except.mapError]

/-- Witness for C9 on a concrete place without `formatted_address`. -/
theorem parse_place_missing_address_witness :
    parse_place samplePlaceNoAddress = .ok (.jnull, (.jnum 40, .jnum (-73))) ∧
    (parse_json sampleState
        (.jobj [("results", .jarr [samplePlaceNoAddress])]) true).2 =
      .ok (.one (.jnull, (.jnum 40, .jnum (-73)))) := by
  have h := parse_place_missing_address_is_none sampleState
    [("geometry",
      .jobj [("location", .jobj [("lat", .jnum 40), ("lng", .jnum (-73))])])]
    [("results", .jarr [samplePlaceNoAddress])]
    (.jobj [("location", .jobj [("lat", .jnum 40), ("lng", .jnum (-73))])])
    (.jobj [("lat", .jnum 40), ("lng", .jnum (-73))])
    (.jnum 40) (.jnum (-73)) rfl rfl rfl rfl rfl
  exact ⟨h.1, h.2 rfl⟩

/-- A place whose `geometry.location.lat` or `geometry.location.lng`
extraction raises makes `parse_place` raise. -/
theorem parse_place_error_of_bad_geometry (place : Json)
    (hbad : raises ((place.index "geometry").bind
        (fun g => (g.index "location").bind (fun l => l.index "lat"))) =
          true ∨
      raises ((place.index "geometry").bind
        (fun g => (g.index "location").bind (fun l => l.index "lng"))) =
          true) :
    ∃ e, parse_place place = .error e := by
  cases place with
  | jnull => exact ⟨.attributeError, rfl⟩
  | jbool b => exact ⟨.attributeError, rfl⟩
  | jnum q => exact ⟨.attributeError, rfl⟩
  | jstr s => exact ⟨.attributeError, rfl⟩
  | jarr xs => exact ⟨.attributeError, rfl⟩
  | jobj fields =>
    cases hg : Json.index (.jobj fields) "geometry" with
    | error e => exact ⟨e, by simp [parse_place, Json.get, hg]⟩
    | ok geo =>
      cases hl : geo.index "location" with
      | error e => exact ⟨e, by simp [parse_place, Json.get, hg, hl]⟩
      | ok loc =>
        cases hlat : loc.index "lat" with
        | error e => exact ⟨e, by simp [parse_place, Json.get, hg, hl, hlat]⟩
        | ok la =>
          cases hlng : loc.index "lng" with
          | error e =>
            exact ⟨e, by simp [parse_place, Json.get, hg, hl, hlat, hlng]⟩
          | ok ln =>
            rcases hbad with hb | hb <;>
              simp [hg, hl, hlat, hlng, Except.bind, raises] at hb

/-- A failing place anywhere in the list makes `parse_places` raise. -/
theorem parse_places_error_of_mem (ps : List Json) (place : Json)
    (hmem : place ∈ ps) (hpl : ∃ e, parse_place place = .error e) :
    ∃ e, parse_places ps = .error e := by
  induction ps with
  | nil => cases hmem
  | cons q qs ih =>
    rcases List.mem_cons.mp hmem with rfl | hmem2
    · obtain ⟨e, he⟩ := hpl
      exact ⟨e, by simp [parse_places, he]⟩
    · cases hq : parse_place q with
      | error e => exact ⟨e, by simp [parse_places, hq]⟩
      | ok r =>
        obtain ⟨e, he⟩ := ih hmem2
        exact ⟨e, by simp [parse_places, hq, he]⟩

/-- C7: a place in the `results` array that is missing
`geometry.location.lat` or `geometry.location.lng` is a fatal parse
error: `parse_place` raises on it, no default coordinate is substituted
and no tuple is produced — `parse_json` raises whenever that place is
parsed, i.e. always under `exactly_one = false`, and under
`exactly_one = true` when it is the first place. -/
theorem parse_json_fatal_on_missing_geometry (self : GoogleV3)
    (fs : List (String × Json)) (ps : List Json) (place : Json)
    (hres : fs.lookup "results" = some (.jarr ps))
    (hmem : place ∈ ps)
    (hbad : raises ((place.index "geometry").bind
        (fun g => (g.index "location").bind (fun l => l.index "lat"))) =
          true ∨
      raises ((place.index "geometry").bind
        (fun g => (g.index "location").bind (fun l => l.index "lng"))) =
          true) :
    (∃ e, parse_place place = .error e) ∧
    (∃ e, (parse_json self (.jobj fs) false).2 = .error (.pyError e)) ∧
    (∀ ps2, ps = place :: ps2 →
      ∃ e, (parse_json self (.jobj fs) true).2 = .error (.pyError e)) := by
  have hp := parse_place_error_of_bad_geometry place hbad
  refine ⟨hp, ?_, ?_⟩
  · obtain ⟨q, qs, rfl⟩ : ∃ q qs, ps = q :: qs := by
      cases ps with
      | nil => cases hmem
      | cons q qs => exact ⟨q, qs, rfl⟩
    obtain ⟨e, he⟩ := parse_places_error_of_mem (q :: qs) place hmem hp
    exact ⟨e, by simp [parse_json, parse_json_result, hres, Json.isTruthy,
      he, Except.map, Except.mapError]⟩
  · rintro ps2 rfl
    obtain ⟨e, he⟩ := hp
    exact ⟨e, by simp [parse_json, parse_json_result, hres, Json.isTruthy,
      he, Except.map, Except.mapError]⟩

/-- Witness for C7 on a place whose location lacks `lng`. -/
theorem parse_json_fatal_missing_geometry_witness :
    (∃ e, parse_place samplePlaceNoLng = .error e) ∧
    (∃ e, (parse_json sampleState
        (.jobj [("results", .jarr [samplePlaceNoLng])]) false).2 =
      .error (.pyError e)) ∧
    (∀ ps2, ([samplePlaceNoLng] : List Json) = samplePlaceNoLng :: ps2 →
      ∃ e, (parse_json sampleState
          (.jobj [("results", .jarr [samplePlaceNoLng])]) true).2 =
        .error (.pyError e)) :=
  parse_json_fatal_on_missing_geometry sampleState
    [("results", .jarr [samplePlaceNoLng])] [samplePlaceNoLng]
    samplePlaceNoLng rfl (List.mem_singleton.mpr rfl) (Or.inr rfl)

/-- `geocode` leaves the state unchanged or stores the parsed page. -/
theorem geocode_state (self : GoogleV3) (query : String)
    (bounds region language : Option String) (sensor eo : Bool)
    (page : Json) :
    (geocode self query bounds region language sensor eo page).1 = self ∨
    (geocode self query bounds region language sensor eo page).1 =
      { self with doc := page } := by
  cases hd : dispatch_url self
      (geocode_params query bounds region language sensor) with
  | none => simp only [geocode, hd]; exact Or.inl trivial
  | some u => simp only [geocode, hd]; exact Or.inr rfl

/-- `reverse` leaves the state unchanged or stores the parsed page. -/
theorem reverse_state (self : GoogleV3) (pt : PointInput)
    (language : Option String) (sensor eo : Bool) (page : Json) :
    (reverse self pt language sensor eo page).1 = self ∨
    (reverse self pt language sensor eo page).1 =
      { self with doc := page } := by
  cases hc : coerce_point_to_string pt with
  | error e => simp only [reverse, hc]; exact Or.inl trivial
  | ok latlng =>
    cases hd : dispatch_url self (reverse_params latlng language sensor) with
    | none => simp only [reverse, hc, hd]; exact Or.inl trivial
    | some u => simp only [reverse, hc, hd]; exact Or.inr rfl

/-- C8: no call changes the configuration fields (`domain`, `protocol`,
`premier`, `client_id`, `secret_key`); the only state a call modifies is
`doc`, and every `parse_json` call overwrites `doc` with the newly
parsed response (`geocode` and `reverse` modify it exactly through that
`parse_json` call, so their `doc` is the new page or, when they raise
before parsing, the old one). -/
theorem config_immutable_only_doc_changes (self : GoogleV3) (page : Json)
    (query : String) (bounds region language : Option String)
    (pt : PointInput) (sensor eo : Bool) :
    sameConfig (parse_json self page eo).1 self ∧
    (parse_json self page eo).1.doc = page ∧
    sameConfig (geocode self query bounds region language sensor eo page).1
      self ∧
    ((geocode self query bounds region language sensor eo page).1.doc =
        page ∨
      (geocode self query bounds region language sensor eo page).1.doc =
        self.doc) ∧
    sameConfig (reverse self pt language sensor eo page).1 self ∧
    ((reverse self pt language sensor eo page).1.doc = page ∨
      (reverse self pt language sensor eo page).1.doc = self.doc) := by
  refine ⟨⟨rfl, rfl, rfl, rfl, rfl⟩, rfl, ?_, ?_, ?_, ?_⟩
  · rcases geocode_state self query bounds region language sensor eo page
      with h | h <;> rw [h] <;> exact ⟨rfl, rfl, rfl, rfl, rfl⟩
  · rcases geocode_state self query bounds region language sensor eo page
      with h | h <;> rw [h]
    · exact Or.inr rfl
    · exact Or.inl rfl
  · rcases reverse_state self pt language sensor eo page
      with h | h <;> rw [h] <;> exact ⟨rfl, rfl, rfl, rfl, rfl⟩
  · rcases reverse_state self pt language sensor eo page
      with h | h <;> rw [h]
    · exact Or.inr rfl
    · exact Or.inl rfl

end GeopyGoogleV3
